import Mathlib

/-!
Shallow embedding of the PayceMUSD contract (`payce-contract`, `PayceMUSD.sol`),
the dual-purse voucher-based micropayment ledger with MUSD borrowing integration.

Modelling conventions:
* `uint256` values are `Nat`; Solidity 0.8 checked arithmetic is made explicit:
  an addition that would exceed `2^256 - 1`, or a subtraction that would go
  below zero, makes the call revert (`Except.error "panic: ..."`), exactly as
  the EVM does.  Subtractions that are guarded by an immediately preceding
  `require` are written with plain `Nat` subtraction, since the guard makes the
  checked and unchecked versions coincide.
* Addresses are `Nat`.
* A reverting call is `Except.error msg` with the source's revert string; a
  successful call is `Except.ok` of the new state.  Revert semantics mean a
  failed call leaves the contract state untouched (see `runOps`).
* The EIP-712 digest of a voucher is modelled by the voucher value itself:
  `_hashVoucher` is a pure injective function of the five voucher fields (the
  domain separator is fixed for one contract instance), so keying the
  `redeemed` mapping by `Voucher` is faithful up to hash collisions.
* `ECDSA.recover` composed with `_hashVoucher` is modelled by an arbitrary
  total function `recover : Voucher → Sig → Address`: the only facts the
  contract uses about signatures are the recovered address for a given digest.
* External collaborators (the MUSD token, BorrowerOperations, TroveManager)
  are modelled by letting every value the contract reads from them
  (`minNetDebt`, the received-MUSD balance delta, principal, interest) be an
  arbitrary parameter of the corresponding operation; their state is not
  tracked.  Token transfers in/out do not touch purse state.
-/

namespace Payce

/-- Addresses are modelled as natural numbers. -/
abbrev Address := Nat

/-- A signature blob; it is only ever interpreted through `recover`. -/
abbrev Sig := Nat

/-- Largest value of a `uint256`. -/
def UINT_MAX : Nat := 2 ^ 256 - 1

/-- The Voucher struct of `PayceMUSD.sol` (payer, merchant, amount, nonce,
expiry), the payload of the EIP-712 signed message. -/
structure Voucher where
  payer : Address
  merchant : Address
  amount : Nat
  nonce : Nat
  expiry : Nat
  deriving DecidableEq

/-- Contract storage of `PayceMUSD`: the `userBalance`, `reservedBalance` and
`merchantBalance` mappings plus the `redeemed` replay-prevention set (keyed by
the voucher digest, modelled by the voucher itself). -/
structure State where
  userBalance : Address → Nat
  reservedBalance : Address → Nat
  merchantBalance : Address → Nat
  redeemed : Voucher → Bool

/-- The state of a freshly deployed contract: every mapping is zero / false. -/
def initState : State :=
  { userBalance := fun _ => 0
    reservedBalance := fun _ => 0
    merchantBalance := fun _ => 0
    redeemed := fun _ => false }

/-- `availableBalance` view helper: `total - reserved` when `total > reserved`,
else `0` (source lines 681-686). -/
def availableBalance (s : State) (user : Address) : Nat :=
  if s.userBalance user ≤ s.reservedBalance user then 0
  else s.userBalance user - s.reservedBalance user

/-- `deposit(amount)`: requires `amount > 0`, pulls tokens from the caller
(external transfer, modelled as succeeding) and credits `userBalance`. -/
def deposit (s : State) (sender : Address) (amount : Nat) : Except String State :=
  if 0 < amount then
    if s.userBalance sender + amount ≤ UINT_MAX then
      .ok { s with userBalance :=
              Function.update s.userBalance sender (s.userBalance sender + amount) }
    else .error "panic: arithmetic overflow"
  else .error "amount>0"

/-- `withdrawUser(amount)`: requires `amount > 0` and
`amount <= availableBalance(sender)`; debits `userBalance` and transfers the
tokens out. -/
def withdrawUser (s : State) (sender : Address) (amount : Nat) : Except String State :=
  if 0 < amount then
    if amount ≤ availableBalance s sender then
      .ok { s with userBalance :=
              Function.update s.userBalance sender (s.userBalance sender - amount) }
    else .error "insufficient available funds"
  else .error "amount>0"

/-- `reserveFunds(amount)`: requires `amount > 0` and
`amount <= availableBalance(sender)`; credits `reservedBalance`. -/
def reserveFunds (s : State) (sender : Address) (amount : Nat) : Except String State :=
  if 0 < amount then
    if amount ≤ availableBalance s sender then
      if s.reservedBalance sender + amount ≤ UINT_MAX then
        .ok { s with reservedBalance :=
                Function.update s.reservedBalance sender (s.reservedBalance sender + amount) }
      else .error "panic: arithmetic overflow"
    else .error "not enough available to reserve"
  else .error "amount>0"

/-- `releaseReserved(amount)`: requires `amount > 0` and
`reservedBalance(sender) >= amount`; debits `reservedBalance`. -/
def releaseReserved (s : State) (sender : Address) (amount : Nat) : Except String State :=
  if 0 < amount then
    if amount ≤ s.reservedBalance sender then
      .ok { s with reservedBalance :=
              Function.update s.reservedBalance sender (s.reservedBalance sender - amount) }
    else .error "not reserved that much"
  else .error "amount>0"

/-- The committed effects of redeeming voucher `v` (source lines 608-612 and
652-656): mark the digest redeemed, debit the payer's total and reserved
balances, credit the merchant's earnings. -/
def applyRedemption (s : State) (v : Voucher) : State :=
  { s with
    redeemed := Function.update s.redeemed v true
    userBalance :=
      Function.update s.userBalance v.payer (s.userBalance v.payer - v.amount)
    reservedBalance :=
      Function.update s.reservedBalance v.payer (s.reservedBalance v.payer - v.amount)
    merchantBalance :=
      Function.update s.merchantBalance v.merchant (s.merchantBalance v.merchant + v.amount) }

/-- `redeemVoucher(voucher, signature)` (source lines 584-615): only the named
merchant may call; the voucher must be unexpired (`block.timestamp <= expiry`,
with `now` the block timestamp), not already redeemed, signed by the payer, and
covered by the payer's total and reserved balances; then the redemption
effects are applied atomically. -/
def redeemVoucher (recover : Voucher → Sig → Address) (now : Nat)
    (s : State) (sender : Address) (v : Voucher) (sig : Sig) : Except String State :=
  if sender = v.merchant then
    if now ≤ v.expiry then
      if s.redeemed v then .error "voucher already redeemed"
      else
        if recover v sig = v.payer then
          if v.amount ≤ s.userBalance v.payer then
            if v.amount ≤ s.reservedBalance v.payer then
              if s.merchantBalance v.merchant + v.amount ≤ UINT_MAX then
                .ok (applyRedemption s v)
              else .error "panic: arithmetic overflow"
            else .error "not enough reserved funds"
          else .error "payer insufficient balance"
        else .error "invalid signature"
    else .error "voucher expired"
  else .error "only merchant can call"

/-- Loop body of `redeemBatch` (source lines 627-659), processing the zipped
voucher/signature list strictly in order.  Caller-mismatch and expiry are
`require`s (abort the whole call); an already-redeemed digest or a recovered
signer different from the payer is skipped with `continue`; balance shortfalls
are `require`s again.  The returned list records, in order, the vouchers whose
effects were committed (the `Redeemed` events). -/
def redeemBatchLoop (recover : Voucher → Sig → Address) (now : Nat) (sender : Address) :
    State → List (Voucher × Sig) → Except String (State × List Voucher)
  | s, [] => .ok (s, [])
  | s, (v, sig) :: rest =>
    if sender = v.merchant then
      if now ≤ v.expiry then
        if s.redeemed v then
          redeemBatchLoop recover now sender s rest
        else if recover v sig = v.payer then
          if v.amount ≤ s.userBalance v.payer then
            if v.amount ≤ s.reservedBalance v.payer then
              if s.merchantBalance v.merchant + v.amount ≤ UINT_MAX then
                match redeemBatchLoop recover now sender (applyRedemption s v) rest with
                | .ok (s', evs) => .ok (s', v :: evs)
                | .error e => .error e
              else .error "panic: arithmetic overflow"
            else .error "not enough reserved funds in batch"
          else .error "payer insufficient balance in batch"
        else
          redeemBatchLoop recover now sender s rest
      else .error "voucher expired"
    else .error "caller not merchant"

/-- `redeemBatch(vouchers, signatures)` (source lines 622-660): requires equal
array lengths, then runs the loop over the paired entries. -/
def redeemBatch (recover : Voucher → Sig → Address) (now : Nat)
    (s : State) (sender : Address) (vouchers : List Voucher) (signatures : List Sig) :
    Except String (State × List Voucher) :=
  if vouchers.length = signatures.length then
    redeemBatchLoop recover now sender s (vouchers.zip signatures)
  else .error "length mismatch"

/-- `withdrawMerchant(amount)`: requires `amount > 0` and a sufficient
merchant balance; debits `merchantBalance` and transfers the tokens out. -/
def withdrawMerchant (s : State) (sender : Address) (amount : Nat) : Except String State :=
  if 0 < amount then
    if amount ≤ s.merchantBalance sender then
      .ok { s with merchantBalance :=
              Function.update s.merchantBalance sender (s.merchantBalance sender - amount) }
    else .error "insufficient merchant balance"
  else .error "amount>0"

/-- `openTroveAndBorrow(musdAmount, hints, depositToPurse)` (source lines
262-304).  `msgValue` is the attached collateral, `minDebt` the collaborator's
`minNetDebt()`, and `musdReceived` the MUSD balance delta actually received
from the collaborator — both collaborator-reported values are arbitrary
parameters here.  With `depositToPurse` the delta is credited to the caller's
purse, otherwise it is transferred out. -/
def openTroveAndBorrow (s : State) (sender : Address)
    (msgValue musdAmount minDebt musdReceived : Nat) (depositToPurse : Bool) :
    Except String State :=
  if 0 < msgValue then
    if 0 < musdAmount then
      if minDebt ≤ musdAmount then
        if musdAmount ≤ musdReceived then
          if depositToPurse then
            if s.userBalance sender + musdReceived ≤ UINT_MAX then
              .ok { s with userBalance :=
                      Function.update s.userBalance sender (s.userBalance sender + musdReceived) }
            else .error "panic: arithmetic overflow"
          else .ok s
        else .error "didnt receive expected MUSD"
      else .error "below minimum debt"
    else .error "must borrow >0 MUSD"
  else .error "must send BTC collateral"

/-- `repayLoan(amount, hints, fromPurse)` (source lines 313-341): with
`fromPurse` the amount must fit in the caller's available purse balance and is
debited from `userBalance`; otherwise it is pulled from the caller's wallet
and purse state is untouched. -/
def repayLoan (s : State) (sender : Address) (amount : Nat) (fromPurse : Bool) :
    Except String State :=
  if 0 < amount then
    if fromPurse then
      if amount ≤ availableBalance s sender then
        .ok { s with userBalance :=
                Function.update s.userBalance sender (s.userBalance sender - amount) }
      else .error "insufficient purse balance"
    else .ok s
  else .error "amount must be >0"

/-- Fixed gas compensation subtracted from the total debt when closing a
trove: `200e18` (source line 355). -/
def GAS_COMPENSATION : Nat := 200 * 10 ^ 18

/-- `closeTrove(fromPurse)` (source lines 348-385).  `principal` and
`interest` are the collaborator-reported debt components
(`troveManager.getEntireDebtAndColl`).  `totalDebt = principal + interest` is
a checked addition and `musdNeeded = totalDebt - 200e18` a checked
subtraction; `musdNeeded` must then be positive, and with `fromPurse` it is
debited from the caller's available purse balance. -/
def closeTrove (s : State) (sender : Address) (principal interest : Nat)
    (fromPurse : Bool) : Except String State :=
  if principal + interest ≤ UINT_MAX then
    if GAS_COMPENSATION ≤ principal + interest then
      if 0 < principal + interest - GAS_COMPENSATION then
        if fromPurse then
          if principal + interest - GAS_COMPENSATION ≤ availableBalance s sender then
            .ok { s with userBalance :=
                    Function.update s.userBalance sender (s.userBalance sender - (principal + interest - GAS_COMPENSATION)) }
          else .error "insufficient purse balance"
        else .ok s
      else .error "no debt to repay"
    else .error "panic: arithmetic underflow"
  else .error "panic: arithmetic overflow"

/-- One external call to a purse-mutating entry point of the contract,
together with the environment values it observes (`now` is the block
timestamp of the call; collaborator-reported numbers are carried in the
constructor). -/
inductive Op where
  | deposit (sender : Address) (amount : Nat)
  | withdrawUser (sender : Address) (amount : Nat)
  | reserveFunds (sender : Address) (amount : Nat)
  | releaseReserved (sender : Address) (amount : Nat)
  | redeemVoucher (now : Nat) (sender : Address) (v : Voucher) (sig : Sig)
  | redeemBatch (now : Nat) (sender : Address) (vouchers : List Voucher) (signatures : List Sig)
  | withdrawMerchant (sender : Address) (amount : Nat)
  | openTroveAndBorrow (sender : Address) (msgValue musdAmount minDebt musdReceived : Nat)
      (depositToPurse : Bool)
  | repayLoan (sender : Address) (amount : Nat) (fromPurse : Bool)
  | closeTrove (sender : Address) (principal interest : Nat) (fromPurse : Bool)

/-- Apply one operation; the returned list records the vouchers whose
redemption effects were committed during the call (the `Redeemed` events), in
order. -/
def applyEv (recover : Voucher → Sig → Address) (op : Op) (s : State) :
    Except String (State × List Voucher) :=
  match op with
  | .deposit sender amount =>
    match deposit s sender amount with
    | .ok s' => .ok (s', []) | .error e => .error e
  | .withdrawUser sender amount =>
    match withdrawUser s sender amount with
    | .ok s' => .ok (s', []) | .error e => .error e
  | .reserveFunds sender amount =>
    match reserveFunds s sender amount with
    | .ok s' => .ok (s', []) | .error e => .error e
  | .releaseReserved sender amount =>
    match releaseReserved s sender amount with
    | .ok s' => .ok (s', []) | .error e => .error e
  | .redeemVoucher now sender v sig =>
    match redeemVoucher recover now s sender v sig with
    | .ok s' => .ok (s', [v]) | .error e => .error e
  | .redeemBatch now sender vs sigs => redeemBatch recover now s sender vs sigs
  | .withdrawMerchant sender amount =>
    match withdrawMerchant s sender amount with
    | .ok s' => .ok (s', []) | .error e => .error e
  | .openTroveAndBorrow sender mv ma md mr dp =>
    match openTroveAndBorrow s sender mv ma md mr dp with
    | .ok s' => .ok (s', []) | .error e => .error e
  | .repayLoan sender amount fp =>
    match repayLoan s sender amount fp with
    | .ok s' => .ok (s', []) | .error e => .error e
  | .closeTrove sender p i fp =>
    match closeTrove s sender p i fp with
    | .ok s' => .ok (s', []) | .error e => .error e

/-- Run a sequence of external calls.  A reverting call (an `Except.error`)
leaves the state unchanged — EVM revert semantics — and the run continues
with the next call.  The second component concatenates the redemption events
of all successful calls, in order. -/
def runOps (recover : Voucher → Sig → Address) : State → List Op → State × List Voucher
  | s, [] => (s, [])
  | s, op :: ops =>
    match applyEv recover op s with
    | .ok (s', evs) =>
      ((runOps recover s' ops).1, evs ++ (runOps recover s' ops).2)
    | .error _ => runOps recover s ops

/-- Length/emptiness pre-check performed by the SDK wrapper
`PayceMicropayments.redeemBatch` (payce-sdk `micropayments.ts` lines 209-215)
before submitting the transaction. -/
def sdkRedeemBatchPrecheck (vouchersLen sigsLen : Nat) : Except String Unit :=
  if vouchersLen ≠ sigsLen then
    .error "Vouchers and signatures arrays must have the same length"
  else if vouchersLen = 0 then
    .error "At least one voucher is required"
  else .ok ()

/-! ## Inversion lemmas: what a successful call implies -/

/-- Successful `deposit` characterized. -/
theorem deposit_ok {s s' : State} {sender amount : Nat}
    (h : deposit s sender amount = .ok s') :
    0 < amount ∧ s.userBalance sender + amount ≤ UINT_MAX ∧
    s' = { s with userBalance :=
            Function.update s.userBalance sender (s.userBalance sender + amount) } := by
  unfold deposit at h
  split at h
  · split at h
    · exact ⟨by assumption, by assumption, (Except.ok.inj h).symm⟩
    · cases h
  · cases h

/-- Successful `withdrawUser` characterized. -/
theorem withdrawUser_ok {s s' : State} {sender amount : Nat}
    (h : withdrawUser s sender amount = .ok s') :
    0 < amount ∧ amount ≤ availableBalance s sender ∧
    s' = { s with userBalance :=
            Function.update s.userBalance sender (s.userBalance sender - amount) } := by
  unfold withdrawUser at h
  split at h
  · split at h
    · exact ⟨by assumption, by assumption, (Except.ok.inj h).symm⟩
    · cases h
  · cases h

/-- Successful `reserveFunds` characterized. -/
theorem reserveFunds_ok {s s' : State} {sender amount : Nat}
    (h : reserveFunds s sender amount = .ok s') :
    0 < amount ∧ amount ≤ availableBalance s sender ∧
    s.reservedBalance sender + amount ≤ UINT_MAX ∧
    s' = { s with reservedBalance :=
            Function.update s.reservedBalance sender (s.reservedBalance sender + amount) } := by
  unfold reserveFunds at h
  split at h
  · split at h
    · split at h
      · exact ⟨by assumption, by assumption, by assumption, (Except.ok.inj h).symm⟩
      · cases h
    · cases h
  · cases h

/-- Successful `releaseReserved` characterized. -/
theorem releaseReserved_ok {s s' : State} {sender amount : Nat}
    (h : releaseReserved s sender amount = .ok s') :
    0 < amount ∧ amount ≤ s.reservedBalance sender ∧
    s' = { s with reservedBalance :=
            Function.update s.reservedBalance sender (s.reservedBalance sender - amount) } := by
  unfold releaseReserved at h
  split at h
  · split at h
    · exact ⟨by assumption, by assumption, (Except.ok.inj h).symm⟩
    · cases h
  · cases h

/-- Successful `withdrawMerchant` characterized. -/
theorem withdrawMerchant_ok {s s' : State} {sender amount : Nat}
    (h : withdrawMerchant s sender amount = .ok s') :
    0 < amount ∧ amount ≤ s.merchantBalance sender ∧
    s' = { s with merchantBalance :=
            Function.update s.merchantBalance sender (s.merchantBalance sender - amount) } := by
  unfold withdrawMerchant at h
  split at h
  · split at h
    · exact ⟨by assumption, by assumption, (Except.ok.inj h).symm⟩
    · cases h
  · cases h

/-- Successful `redeemVoucher` characterized: every precondition held and the
new state is exactly the committed redemption. -/
theorem redeemVoucher_ok {recover : Voucher → Sig → Address} {now : Nat}
    {s s' : State} {sender : Address} {v : Voucher} {sig : Sig}
    (h : redeemVoucher recover now s sender v sig = .ok s') :
    sender = v.merchant ∧ now ≤ v.expiry ∧ s.redeemed v = false ∧
    recover v sig = v.payer ∧ v.amount ≤ s.userBalance v.payer ∧
    v.amount ≤ s.reservedBalance v.payer ∧
    s.merchantBalance v.merchant + v.amount ≤ UINT_MAX ∧
    s' = applyRedemption s v := by
  unfold redeemVoucher at h
  split at h
  · split at h
    · split at h
      · cases h
      · split at h
        · split at h
          · split at h
            · split at h
              · exact ⟨by assumption, by assumption, by simp_all, by assumption,
                  by assumption, by assumption, by assumption, (Except.ok.inj h).symm⟩
              · cases h
            · cases h
          · cases h
        · cases h
    · cases h
  · cases h

/-- Successful `openTroveAndBorrow` leaves `reservedBalance`, `merchantBalance`
and `redeemed` untouched and does not decrease any `userBalance`. -/
theorem openTroveAndBorrow_ok {s s' : State} {sender mv ma md mr : Nat} {dp : Bool}
    (h : openTroveAndBorrow s sender mv ma md mr dp = .ok s') :
    s'.reservedBalance = s.reservedBalance ∧ s'.merchantBalance = s.merchantBalance ∧
    s'.redeemed = s.redeemed ∧ ∀ a, s.userBalance a ≤ s'.userBalance a := by
  unfold openTroveAndBorrow at h
  split at h
  · split at h
    · split at h
      · split at h
        · split at h
          · split at h
            · cases h
              refine ⟨rfl, rfl, rfl, fun a => ?_⟩
              dsimp only
              rw [Function.update_apply]
              split
              · next heq => subst heq; omega
              · exact le_refl _
            · cases h
          · cases h
            exact ⟨rfl, rfl, rfl, fun a => le_refl _⟩
        · cases h
      · cases h
    · cases h
  · cases h

/-- Successful `repayLoan` leaves `reservedBalance`, `merchantBalance` and
`redeemed` untouched, and either leaves `userBalance` untouched or debits the
caller by an amount within the available balance. -/
theorem repayLoan_ok {s s' : State} {sender amount : Nat} {fp : Bool}
    (h : repayLoan s sender amount fp = .ok s') :
    s'.reservedBalance = s.reservedBalance ∧ s'.merchantBalance = s.merchantBalance ∧
    s'.redeemed = s.redeemed ∧
    (s'.userBalance = s.userBalance ∨
      (amount ≤ availableBalance s sender ∧
       s'.userBalance = Function.update s.userBalance sender (s.userBalance sender - amount))) := by
  unfold repayLoan at h
  split at h
  · split at h
    · split at h
      · cases h
        exact ⟨rfl, rfl, rfl, Or.inr ⟨by assumption, rfl⟩⟩
      · cases h
    · cases h
      exact ⟨rfl, rfl, rfl, Or.inl rfl⟩
  · cases h

/-- Successful `closeTrove` leaves `reservedBalance`, `merchantBalance` and
`redeemed` untouched, and either leaves `userBalance` untouched or debits the
caller by an amount within the available balance. -/
theorem closeTrove_ok {s s' : State} {sender p i : Nat} {fp : Bool}
    (h : closeTrove s sender p i fp = .ok s') :
    s'.reservedBalance = s.reservedBalance ∧ s'.merchantBalance = s.merchantBalance ∧
    s'.redeemed = s.redeemed ∧
    (s'.userBalance = s.userBalance ∨
      ∃ amt, amt ≤ availableBalance s sender ∧
        s'.userBalance = Function.update s.userBalance sender (s.userBalance sender - amt)) := by
  unfold closeTrove at h
  split at h
  · split at h
    · split at h
      · split at h
        · split at h
          · cases h
            exact ⟨rfl, rfl, rfl, Or.inr ⟨_, by assumption, rfl⟩⟩
          · cases h
        · cases h
          exact ⟨rfl, rfl, rfl, Or.inl rfl⟩
      · cases h
    · cases h
  · cases h

/-! ## The reserved-within-total invariant -/

/-- Every account's reserved balance is within its total purse balance. -/
def ReservedLeTotal (s : State) : Prop :=
  ∀ a, s.reservedBalance a ≤ s.userBalance a

theorem initState_inv : ReservedLeTotal initState := by
  intro a
  simp [initState]

theorem avail_bound {s : State} {x amt : Nat} (h : amt ≤ availableBalance s x) :
    s.reservedBalance x + amt ≤ s.userBalance x ∨ amt = 0 := by
  unfold availableBalance at h
  split at h <;> omega

theorem avail_sub_bound {s : State} {x amt : Nat} (hs : ReservedLeTotal s)
    (h : amt ≤ availableBalance s x) :
    s.reservedBalance x ≤ s.userBalance x - amt := by
  have := hs x
  unfold availableBalance at h
  split at h <;> omega

theorem inv_update_user_ge {s : State} {x n : Nat} (hs : ReservedLeTotal s)
    (hge : s.userBalance x ≤ n) :
    ReservedLeTotal { s with userBalance := Function.update s.userBalance x n } := by
  intro a
  have h1 := hs a
  have h2 := hs x
  dsimp only
  rw [Function.update_apply]
  split
  · next heq => subst heq; omega
  · exact h1

theorem inv_update_user_avail_sub {s : State} {x amt : Nat} (hs : ReservedLeTotal s)
    (h : amt ≤ availableBalance s x) :
    ReservedLeTotal
      { s with userBalance := Function.update s.userBalance x (s.userBalance x - amt) } := by
  intro a
  have h1 := hs a
  have h2 := avail_sub_bound hs h
  dsimp only
  rw [Function.update_apply]
  split
  · next heq => subst heq; exact h2
  · exact h1

theorem inv_update_reserved_le {s : State} {x n : Nat} (hs : ReservedLeTotal s)
    (hle : n ≤ s.userBalance x) :
    ReservedLeTotal { s with reservedBalance := Function.update s.reservedBalance x n } := by
  intro a
  have h1 := hs a
  dsimp only
  rw [Function.update_apply]
  split
  · next heq => subst heq; exact hle
  · exact h1

theorem applyRedemption_inv {s : State} {v : Voucher} (hs : ReservedLeTotal s)
    (hu : v.amount ≤ s.userBalance v.payer) :
    ReservedLeTotal (applyRedemption s v) := by
  intro a
  have h1 := hs a
  have h2 := hs v.payer
  unfold applyRedemption
  dsimp only
  rw [Function.update_apply, Function.update_apply]
  by_cases ha : a = v.payer
  · subst ha; rw [if_pos rfl, if_pos rfl]; omega
  · rw [if_neg ha, if_neg ha]; exact h1

/-! ## State facts about `applyRedemption` -/

theorem applyRedemption_redeemed {s : State} {v d : Voucher} :
    (applyRedemption s v).redeemed d = if d = v then true else s.redeemed d := by
  unfold applyRedemption
  dsimp only
  rw [Function.update_apply]

theorem applyRedemption_redeemed_self {s : State} {v : Voucher} :
    (applyRedemption s v).redeemed v = true := by
  rw [applyRedemption_redeemed]
  simp

/-! ## Batch loop lemmas -/

theorem redeemBatchLoop_inv {recover : Voucher → Sig → Address} {now : Nat} {sender : Address} :
    ∀ (l : List (Voucher × Sig)) (s s' : State) (evs : List Voucher),
      redeemBatchLoop recover now sender s l = .ok (s', evs) →
      ReservedLeTotal s → ReservedLeTotal s' := by
  intro l
  induction l with
  | nil =>
    intro s s' evs h hs
    unfold redeemBatchLoop at h
    cases h
    exact hs
  | cons e rest ih =>
    intro s s' evs h hs
    obtain ⟨v, sig⟩ := e
    unfold redeemBatchLoop at h
    split at h
    · split at h
      · split at h
        · exact ih s s' evs h hs
        · split at h
          · split at h
            · split at h
              · split at h
                · split at h
                  · next s'' evs' hrec =>
                    cases h
                    exact ih _ _ _ hrec (applyRedemption_inv hs (by assumption))
                  · cases h
                · cases h
              · cases h
            · cases h
          · exact ih s s' evs h hs
      · cases h
    · cases h

theorem redeemBatchLoop_count {recover : Voucher → Sig → Address} {now : Nat} {sender : Address} :
    ∀ (l : List (Voucher × Sig)) (s s' : State) (evs : List Voucher),
      redeemBatchLoop recover now sender s l = .ok (s', evs) →
      ∀ d, evs.count d + (if s.redeemed d then 1 else 0) =
        (if s'.redeemed d then 1 else 0) := by
  intro l
  induction l with
  | nil =>
    intro s s' evs h d
    unfold redeemBatchLoop at h
    cases h
    simp
  | cons e rest ih =>
    intro s s' evs h d
    obtain ⟨v, sig⟩ := e
    unfold redeemBatchLoop at h
    split at h
    · split at h
      · split at h
        · exact ih s s' evs h d
        · split at h
          · split at h
            · split at h
              · split at h
                · split at h
                  · next s'' evs' hrec =>
                    cases h
                    have hih := ih _ _ _ hrec d
                    rw [applyRedemption_redeemed] at hih
                    have hnr2 : s.redeemed v = false := by
                      simpa using ‹¬s.redeemed v = true›
                    rw [List.count_cons]
                    by_cases hd : d = v
                    · rw [if_pos hd] at hih
                      norm_num at hih
                      have hbeq2 : (v == d) = true := by simp [hd]
                      have hred : s.redeemed d = false := by rw [hd]; exact hnr2
                      rw [hbeq2, hred]
                      norm_num
                      omega
                    · rw [if_neg hd] at hih
                      have hbeq : (v == d) = false := by simp [Ne.symm hd]
                      rw [hbeq]
                      norm_num
                      omega
                  · cases h
                · cases h
              · cases h
            · cases h
          · exact ih s s' evs h d
      · cases h
    · cases h

/-! ## Per-call lemmas over `applyEv` -/

theorem applyEv_inv {recover : Voucher → Sig → Address} {op : Op} {s s' : State}
    {evs : List Voucher} (h : applyEv recover op s = .ok (s', evs))
    (hs : ReservedLeTotal s) : ReservedLeTotal s' := by
  cases op with
  | deposit sender amount =>
    simp only [applyEv] at h
    split at h
    · next s₂ hd =>
      cases h
      obtain ⟨h1, h2, h3⟩ := deposit_ok hd
      subst h3
      exact inv_update_user_ge hs (by omega)
    · cases h
  | withdrawUser sender amount =>
    simp only [applyEv] at h
    split at h
    · next s₂ hd =>
      cases h
      obtain ⟨h1, h2, h3⟩ := withdrawUser_ok hd
      subst h3
      exact inv_update_user_avail_sub hs h2
    · cases h
  | reserveFunds sender amount =>
    simp only [applyEv] at h
    split at h
    · next s₂ hd =>
      cases h
      obtain ⟨h1, h2, h3, h4⟩ := reserveFunds_ok hd
      subst h4
      have := avail_bound h2
      exact inv_update_reserved_le hs (by omega)
    · cases h
  | releaseReserved sender amount =>
    simp only [applyEv] at h
    split at h
    · next s₂ hd =>
      cases h
      obtain ⟨h1, h2, h3⟩ := releaseReserved_ok hd
      subst h3
      have := hs sender
      exact inv_update_reserved_le hs (by omega)
    · cases h
  | redeemVoucher now sender v sig =>
    simp only [applyEv] at h
    split at h
    · next s₂ hd =>
      cases h
      obtain ⟨_, _, _, _, h5, _, _, h8⟩ := redeemVoucher_ok hd
      subst h8
      exact applyRedemption_inv hs h5
    · cases h
  | redeemBatch now sender vs sigs =>
    simp only [applyEv, redeemBatch] at h
    split at h
    · exact redeemBatchLoop_inv _ _ _ _ h hs
    · cases h
  | withdrawMerchant sender amount =>
    simp only [applyEv] at h
    split at h
    · next s₂ hd =>
      cases h
      obtain ⟨h1, h2, h3⟩ := withdrawMerchant_ok hd
      subst h3
      exact fun a => hs a
    · cases h
  | openTroveAndBorrow sender mv ma md mr dp =>
    simp only [applyEv] at h
    split at h
    · next s₂ hd =>
      cases h
      obtain ⟨hres, _, _, huser⟩ := openTroveAndBorrow_ok hd
      intro a
      rw [hres]
      exact le_trans (hs a) (huser a)
    · cases h
  | repayLoan sender amount fp =>
    simp only [applyEv] at h
    split at h
    · next s₂ hd =>
      cases h
      obtain ⟨hres, _, _, hu⟩ := repayLoan_ok hd
      cases hu with
      | inl heq => intro a; rw [hres, heq]; exact hs a
      | inr hupd =>
        obtain ⟨havail, heq⟩ := hupd
        intro a
        rw [hres, heq]
        exact (inv_update_user_avail_sub hs havail) a
    · cases h
  | closeTrove sender p i fp =>
    simp only [applyEv] at h
    split at h
    · next s₂ hd =>
      cases h
      obtain ⟨hres, _, _, hu⟩ := closeTrove_ok hd
      cases hu with
      | inl heq => intro a; rw [hres, heq]; exact hs a
      | inr hupd =>
        obtain ⟨amt, havail, heq⟩ := hupd
        intro a
        rw [hres, heq]
        exact (inv_update_user_avail_sub hs havail) a
    · cases h

theorem applyEv_count {recover : Voucher → Sig → Address} {op : Op} {s s' : State}
    {evs : List Voucher} (h : applyEv recover op s = .ok (s', evs)) (d : Voucher) :
    evs.count d + (if s.redeemed d then 1 else 0) = (if s'.redeemed d then 1 else 0) := by
  cases op with
  | deposit sender amount =>
    simp only [applyEv] at h
    split at h
    · next s₂ hd =>
      cases h
      obtain ⟨_, _, h3⟩ := deposit_ok hd
      subst h3
      simp
    · cases h
  | withdrawUser sender amount =>
    simp only [applyEv] at h
    split at h
    · next s₂ hd =>
      cases h
      obtain ⟨_, _, h3⟩ := withdrawUser_ok hd
      subst h3
      simp
    · cases h
  | reserveFunds sender amount =>
    simp only [applyEv] at h
    split at h
    · next s₂ hd =>
      cases h
      obtain ⟨_, _, _, h4⟩ := reserveFunds_ok hd
      subst h4
      simp
    · cases h
  | releaseReserved sender amount =>
    simp only [applyEv] at h
    split at h
    · next s₂ hd =>
      cases h
      obtain ⟨_, _, h3⟩ := releaseReserved_ok hd
      subst h3
      simp
    · cases h
  | redeemVoucher now sender v sig =>
    simp only [applyEv] at h
    split at h
    · next s₂ hd =>
      cases h
      obtain ⟨_, _, h3, _, _, _, _, h8⟩ := redeemVoucher_ok hd
      subst h8
      rw [applyRedemption_redeemed, List.count_cons, List.count_nil]
      by_cases hdv : d = v
      · have hbeq : (v == d) = true := by simp [hdv]
        have hred : s.redeemed d = false := by rw [hdv]; exact h3
        rw [if_pos hdv, hbeq, hred]
        norm_num
      · have hbeq : (v == d) = false := by simp [Ne.symm hdv]
        rw [if_neg hdv, hbeq]
        norm_num
    · cases h
  | redeemBatch now sender vs sigs =>
    simp only [applyEv, redeemBatch] at h
    split at h
    · exact redeemBatchLoop_count _ _ _ _ h d
    · cases h
  | withdrawMerchant sender amount =>
    simp only [applyEv] at h
    split at h
    · next s₂ hd =>
      cases h
      obtain ⟨_, _, h3⟩ := withdrawMerchant_ok hd
      subst h3
      simp
    · cases h
  | openTroveAndBorrow sender mv ma md mr dp =>
    simp only [applyEv] at h
    split at h
    · next s₂ hd =>
      cases h
      obtain ⟨_, _, hr, _⟩ := openTroveAndBorrow_ok hd
      rw [hr]
      simp
    · cases h
  | repayLoan sender amount fp =>
    simp only [applyEv] at h
    split at h
    · next s₂ hd =>
      cases h
      obtain ⟨_, _, hr, _⟩ := repayLoan_ok hd
      rw [hr]
      simp
    · cases h
  | closeTrove sender p i fp =>
    simp only [applyEv] at h
    split at h
    · next s₂ hd =>
      cases h
      obtain ⟨_, _, hr, _⟩ := closeTrove_ok hd
      rw [hr]
      simp
    · cases h

/-! ## Trace lemmas over `runOps` -/

theorem runOps_nil {recover : Voucher → Sig → Address} {s : State} :
    runOps recover s [] = (s, []) := rfl

theorem runOps_cons_ok {recover : Voucher → Sig → Address} {op : Op} {ops : List Op}
    {s s' : State} {evs : List Voucher} (h : applyEv recover op s = .ok (s', evs)) :
    runOps recover s (op :: ops) =
      ((runOps recover s' ops).1, evs ++ (runOps recover s' ops).2) := by
  simp only [runOps, h]

theorem runOps_cons_err {recover : Voucher → Sig → Address} {op : Op} {ops : List Op}
    {s : State} {e : String} (h : applyEv recover op s = .error e) :
    runOps recover s (op :: ops) = runOps recover s ops := by
  simp only [runOps, h]

theorem runOps_inv {recover : Voucher → Sig → Address} :
    ∀ (ops : List Op) (s : State), ReservedLeTotal s →
      ReservedLeTotal (runOps recover s ops).1 := by
  intro ops
  induction ops with
  | nil => intro s hs; exact hs
  | cons op ops ih =>
    intro s hs
    cases hae : applyEv recover op s with
    | ok p =>
      obtain ⟨s', evs⟩ := p
      rw [runOps_cons_ok hae]
      exact ih s' (applyEv_inv hae hs)
    | error e =>
      rw [runOps_cons_err hae]
      exact ih s hs

theorem runOps_count {recover : Voucher → Sig → Address} :
    ∀ (ops : List Op) (s : State) (d : Voucher),
      ((runOps recover s ops).2).count d + (if s.redeemed d then 1 else 0) =
        (if ((runOps recover s ops).1).redeemed d then 1 else 0) := by
  intro ops
  induction ops with
  | nil => intro s d; simp [runOps_nil]
  | cons op ops ih =>
    intro s d
    cases hae : applyEv recover op s with
    | ok p =>
      obtain ⟨s', evs⟩ := p
      rw [runOps_cons_ok hae]
      dsimp only
      have h1 := applyEv_count hae d
      have h2 := ih s' d
      rw [List.count_append]
      omega
    | error e =>
      rw [runOps_cons_err hae]
      exact ih s d

theorem runOps_redeemed_mono {recover : Voucher → Sig → Address}
    (ops : List Op) (s : State) (d : Voucher) (hd : s.redeemed d = true) :
    ((runOps recover s ops).1).redeemed d = true := by
  have hc := @runOps_count recover ops s d
  rw [hd] at hc
  norm_num at hc
  cases hb : ((runOps recover s ops).1).redeemed d with
  | true => rfl
  | false => rw [hb] at hc; norm_num at hc

/-- When the `redeemed` flag for a voucher is set, `redeemVoucher` on that
voucher always reverts, whatever the caller and the timestamp. -/
theorem redeemVoucher_err_of_redeemed {recover : Voucher → Sig → Address} {now : Nat}
    {s : State} {sender : Address} {v : Voucher} {sig : Sig}
    (hred : s.redeemed v = true) :
    ∃ e, redeemVoucher recover now s sender v sig = .error e := by
  by_cases h1 : sender = v.merchant
  · by_cases h2 : now ≤ v.expiry
    · refine ⟨"voucher already redeemed", ?_⟩
      unfold redeemVoucher
      rw [if_pos h1, if_pos h2, if_pos hred]
    · exact ⟨"voucher expired", by unfold redeemVoucher; rw [if_pos h1, if_neg h2]⟩
  · exact ⟨"only merchant can call", by unfold redeemVoucher; rw [if_neg h1]⟩

/-! ## Concrete fixtures for witnesses and counterexamples -/

/-- A recovery function under which every signature is the payer's: used to
build concrete successful redemptions. -/
def rc0 : Voucher → Sig → Address := fun v _ => v.payer

/-- A recovery function that always yields address 99 (a garbage signature). -/
def rcBad : Voucher → Sig → Address := fun _ _ => 99

/-- Sample voucher: payer 1 pays merchant 2 an amount of 30, nonce 1,
expiry 10. -/
def v1 : Voucher := ⟨1, 2, 30, 1, 10⟩

/-- Sample state: account 1 holds 100 total of which 50 reserved. -/
def s0 : State :=
  { userBalance := Function.update (fun _ => 0) 1 100
    reservedBalance := Function.update (fun _ => 0) 1 50
    merchantBalance := fun _ => 0
    redeemed := fun _ => false }

/-- The state after redeeming `v1` from `s0`. -/
def s1w : State := applyRedemption s0 v1

/-- A state in which `v1` is already marked redeemed. -/
def sRed : State := { initState with redeemed := Function.update initState.redeemed v1 true }

/-! ## Claim theorems -/

/-- C1: a successful `redeemVoucher` call implies the caller was the voucher's
merchant, the voucher was unexpired and not yet redeemed, the recovered signer
was the payer, and the payer's balances covered the amount; and it marks the
digest redeemed, decreases the payer's total and reserved balances each by
exactly the amount, and increases the merchant's earnings by exactly the
amount. -/
theorem redeemVoucher_success_effects
    (recover : Voucher → Sig → Address) (now : Nat) (s : State) (sender : Address)
    (v : Voucher) (sig : Sig) (s' : State)
    (h : redeemVoucher recover now s sender v sig = .ok s') :
    sender = v.merchant ∧ now ≤ v.expiry ∧ s.redeemed v = false ∧
    recover v sig = v.payer ∧
    v.amount ≤ s.userBalance v.payer ∧ v.amount ≤ s.reservedBalance v.payer ∧
    s'.redeemed v = true ∧
    s'.userBalance v.payer = s.userBalance v.payer - v.amount ∧
    s'.reservedBalance v.payer = s.reservedBalance v.payer - v.amount ∧
    s'.merchantBalance v.merchant = s.merchantBalance v.merchant + v.amount := by
  obtain ⟨h1, h2, h3, h4, h5, h6, h7, h8⟩ := redeemVoucher_ok h
  subst h8
  refine ⟨h1, h2, h3, h4, h5, h6, applyRedemption_redeemed_self, ?_, ?_, ?_⟩
  · unfold applyRedemption
    dsimp only
    rw [Function.update_same]
  · unfold applyRedemption
    dsimp only
    rw [Function.update_same]
  · unfold applyRedemption
    dsimp only
    rw [Function.update_same]

/-- Witness for C1 at a concrete input: merchant 2 redeems voucher `v1` from
state `s0`. -/
theorem redeemVoucher_success_effects_witness :
    2 = v1.merchant ∧ 5 ≤ v1.expiry ∧ s0.redeemed v1 = false ∧
    rc0 v1 0 = v1.payer ∧
    v1.amount ≤ s0.userBalance v1.payer ∧ v1.amount ≤ s0.reservedBalance v1.payer ∧
    s1w.redeemed v1 = true ∧
    s1w.userBalance v1.payer = s0.userBalance v1.payer - v1.amount ∧
    s1w.reservedBalance v1.payer = s0.reservedBalance v1.payer - v1.amount ∧
    s1w.merchantBalance v1.merchant = s0.merchantBalance v1.merchant + v1.amount :=
  redeemVoucher_success_effects rc0 5 s0 2 v1 0 s1w rfl

/-- C2: in every state reachable by any sequence of the contract's mutating
operations from the initial all-zero state, every account's reserved balance
is at most its total balance. -/
theorem reserved_le_total_reachable (recover : Voucher → Sig → Address)
    (ops : List Op) (a : Address) :
    ((runOps recover initState ops).1).reservedBalance a ≤
      ((runOps recover initState ops).1).userBalance a :=
  runOps_inv ops initState initState_inv a

/-- C3: after a successful `redeemVoucher`, any later call with the same
voucher and signature — from any reachable later state, any caller, any
timestamp — reverts, and the reverting call leaves the state unchanged. -/
theorem redeemVoucher_second_call_rejected
    (recover : Voucher → Sig → Address) (now : Nat) (s : State) (sender : Address)
    (v : Voucher) (sig : Sig) (s₁ : State)
    (h : redeemVoucher recover now s sender v sig = .ok s₁)
    (ops : List Op) (now' : Nat) (sender' : Address) :
    (∃ e, redeemVoucher recover now' (runOps recover s₁ ops).1 sender' v sig = .error e) ∧
    runOps recover (runOps recover s₁ ops).1 [Op.redeemVoucher now' sender' v sig] =
      ((runOps recover s₁ ops).1, []) := by
  have h1 : s₁.redeemed v = true := by
    obtain ⟨_, _, _, _, _, _, _, h8⟩ := redeemVoucher_ok h
    subst h8
    exact applyRedemption_redeemed_self
  have h2 : ((runOps recover s₁ ops).1).redeemed v = true :=
    runOps_redeemed_mono ops s₁ v h1
  obtain ⟨e, he⟩ := @redeemVoucher_err_of_redeemed recover now' _ sender' v sig h2
  refine ⟨⟨e, he⟩, ?_⟩
  have ha : applyEv recover (Op.redeemVoucher now' sender' v sig)
      (runOps recover s₁ ops).1 = .error e := by
    simp only [applyEv, he]
  rw [runOps_cons_err ha, runOps_nil]

/-- Witness for C3 at a concrete input: after redeeming `v1` and a further
deposit, a repeat redemption reverts without effect. -/
theorem redeemVoucher_second_call_rejected_witness :
    (∃ e, redeemVoucher rc0 5 (runOps rc0 s1w [Op.deposit 1 5]).1 2 v1 0 = .error e) ∧
    runOps rc0 (runOps rc0 s1w [Op.deposit 1 5]).1 [Op.redeemVoucher 5 2 v1 0] =
      ((runOps rc0 s1w [Op.deposit 1 5]).1, []) :=
  redeemVoucher_second_call_rejected rc0 5 s0 2 v1 0 s1w rfl [Op.deposit 1 5] 5 2

/-- C7: voucher expiry is an inclusive boundary.  With every other
precondition satisfied, a call at `now = expiry` succeeds and a call at
`now = expiry + 1` reverts with the expired-voucher error. -/
theorem redeemVoucher_expiry_boundary
    (recover : Voucher → Sig → Address) (s : State) (sender : Address)
    (v : Voucher) (sig : Sig) (now : Nat)
    (h1 : sender = v.merchant) (h2 : s.redeemed v = false)
    (h3 : recover v sig = v.payer)
    (h4 : v.amount ≤ s.userBalance v.payer) (h5 : v.amount ≤ s.reservedBalance v.payer)
    (h6 : s.merchantBalance v.merchant + v.amount ≤ UINT_MAX) :
    (v.expiry = now → redeemVoucher recover now s sender v sig = .ok (applyRedemption s v)) ∧
    (v.expiry + 1 = now → redeemVoucher recover now s sender v sig = .error "voucher expired") := by
  constructor
  · intro he
    unfold redeemVoucher
    rw [if_pos h1, if_pos (by omega), if_neg (by simp [h2]), if_pos h3, if_pos h4,
      if_pos h5, if_pos h6]
  · intro he
    unfold redeemVoucher
    rw [if_pos h1, if_neg (by omega)]

/-- Witness for C7 at a concrete input: voucher `v1` (expiry 10) redeems at
timestamp 10 and reverts at timestamp 11. -/
theorem redeemVoucher_expiry_boundary_witness :
    redeemVoucher rc0 10 s0 2 v1 0 = .ok (applyRedemption s0 v1) ∧
    redeemVoucher rc0 11 s0 2 v1 0 = .error "voucher expired" :=
  ⟨(redeemVoucher_expiry_boundary rc0 s0 2 v1 0 10 (by decide) (by decide) (by decide)
      (by decide) (by decide) (by decide)).1 (by decide),
   (redeemVoucher_expiry_boundary rc0 s0 2 v1 0 11 (by decide) (by decide) (by decide)
      (by decide) (by decide) (by decide)).2 (by decide)⟩

/-- C8: `reserveFunds(x)` immediately followed by `releaseReserved(x)`
succeeds for any `0 < x ≤ available` and restores the state exactly — the
reserved balance returns to its prior value and nothing else changes. -/
theorem reserve_release_roundtrip (s : State) (sender : Address) (x : Nat)
    (h1 : 0 < x) (h2 : x ≤ availableBalance s sender)
    (h3 : s.userBalance sender ≤ UINT_MAX) :
    ∃ s₁, reserveFunds s sender x = .ok s₁ ∧ releaseReserved s₁ sender x = .ok s := by
  have hb := avail_bound h2
  have hover : s.reservedBalance sender + x ≤ UINT_MAX := by omega
  refine ⟨{ s with reservedBalance :=
      Function.update s.reservedBalance sender (s.reservedBalance sender + x) }, ?_, ?_⟩
  · unfold reserveFunds
    rw [if_pos h1, if_pos h2, if_pos hover]
  · unfold releaseReserved
    dsimp only
    rw [if_pos h1, if_pos (by rw [Function.update_same]; omega)]
    have key : Function.update
        (Function.update s.reservedBalance sender (s.reservedBalance sender + x)) sender
        (Function.update s.reservedBalance sender (s.reservedBalance sender + x) sender - x) =
        s.reservedBalance := by
      rw [Function.update_same, Function.update_idem, Nat.add_sub_cancel,
        Function.update_eq_self]
    rw [key]

/-- Witness for C8 at a concrete input: account 1 reserves then releases 20
in state `s0`. -/
theorem reserve_release_roundtrip_witness :
    ∃ s₁, reserveFunds s0 1 20 = .ok s₁ ∧ releaseReserved s₁ 1 20 = .ok s0 :=
  reserve_release_roundtrip s0 1 20 (by decide) (by decide) (by decide)

/-- C10: in `closeTrove`, when the collaborator-reported total debt is
strictly below the fixed 200e18 gas compensation the call reverts on the
checked subtraction, and when it is exactly equal it reverts with the
no-debt-to-repay error; in both cases the call leaves the state unchanged
(so `musdNeeded` never wraps around). -/
theorem closeTrove_small_debt_reverts (recover : Voucher → Sig → Address)
    (s : State) (sender : Address) (principal interest : Nat) (fromPurse : Bool) :
    (principal + interest < GAS_COMPENSATION →
      closeTrove s sender principal interest fromPurse = .error "panic: arithmetic underflow") ∧
    (principal + interest = GAS_COMPENSATION →
      closeTrove s sender principal interest fromPurse = .error "no debt to repay") ∧
    (principal + interest ≤ GAS_COMPENSATION →
      runOps recover s [Op.closeTrove sender principal interest fromPurse] = (s, [])) := by
  have hmax : GAS_COMPENSATION ≤ UINT_MAX := by decide
  refine ⟨?_, ?_, ?_⟩
  · intro h
    unfold closeTrove
    rw [if_pos (by omega), if_neg (by omega)]
  · intro h
    unfold closeTrove
    rw [if_pos (by omega), if_pos (by omega), if_neg (by omega)]
  · intro h
    have hrev : ∃ e, closeTrove s sender principal interest fromPurse = .error e := by
      rcases Nat.lt_or_ge (principal + interest) GAS_COMPENSATION with hlt | hge
      · refine ⟨"panic: arithmetic underflow", ?_⟩
        unfold closeTrove
        rw [if_pos (by omega), if_neg (by omega)]
      · refine ⟨"no debt to repay", ?_⟩
        unfold closeTrove
        rw [if_pos (by omega), if_pos (by omega), if_neg (by omega)]
    obtain ⟨e, he⟩ := hrev
    have ha : applyEv recover (Op.closeTrove sender principal interest fromPurse) s =
        .error e := by
      simp only [applyEv, he]
    rw [runOps_cons_err ha, runOps_nil]

/-- Witness for C10 at concrete inputs: debt 0 triggers the underflow revert
and debt exactly 200e18 triggers the no-debt revert; both leave the state
unchanged. -/
theorem closeTrove_small_debt_reverts_witness :
    closeTrove s0 1 0 0 true = .error "panic: arithmetic underflow" ∧
    closeTrove s0 1 GAS_COMPENSATION 0 true = .error "no debt to repay" ∧
    runOps rc0 s0 [Op.closeTrove 1 0 0 true] = (s0, []) :=
  ⟨(closeTrove_small_debt_reverts rc0 s0 1 0 0 true).1 (by decide),
   (closeTrove_small_debt_reverts rc0 s0 1 GAS_COMPENSATION 0 true).2.1 (by decide),
   (closeTrove_small_debt_reverts rc0 s0 1 0 0 true).2.2 (by decide)⟩

/-! ## C5: zero-amount vouchers -/

/-- Zero-amount voucher fixture: payer 1, merchant 2, amount 0, nonce 1,
expiry 10. -/
def v0z : Voucher := ⟨1, 2, 0, 1, 10⟩

/-- C5 counterexample: `redeemVoucher` performs no `amount > 0` check — a
zero-amount voucher that passes the other checks succeeds instead of
failing. -/
theorem redeemVoucher_zero_amount_succeeds_cex :
    redeemVoucher rc0 5 initState 2 v0z 0 = .ok (applyRedemption initState v0z) := rfl

/-- C5 amended: `redeemVoucher` does not require `amount > 0`; a zero-amount
voucher satisfying the remaining preconditions succeeds, marking the digest
redeemed while leaving every balance mapping unchanged. -/
theorem redeemVoucher_zero_amount_no_check
    (recover : Voucher → Sig → Address) (now : Nat) (s : State) (sender : Address)
    (v : Voucher) (sig : Sig)
    (h0 : v.amount = 0) (h1 : sender = v.merchant) (h2 : now ≤ v.expiry)
    (h3 : s.redeemed v = false) (h4 : recover v sig = v.payer)
    (h5 : s.merchantBalance v.merchant ≤ UINT_MAX) :
    redeemVoucher recover now s sender v sig = .ok (applyRedemption s v) ∧
    (applyRedemption s v).userBalance = s.userBalance ∧
    (applyRedemption s v).reservedBalance = s.reservedBalance ∧
    (applyRedemption s v).merchantBalance = s.merchantBalance ∧
    (applyRedemption s v).redeemed v = true := by
  refine ⟨?_, ?_, ?_, ?_, applyRedemption_redeemed_self⟩
  · unfold redeemVoucher
    rw [if_pos h1, if_pos h2, if_neg (by simp [h3]), if_pos h4, if_pos (by omega),
      if_pos (by omega), if_pos (by omega)]
  · unfold applyRedemption
    dsimp only
    rw [h0, Nat.sub_zero, Function.update_eq_self]
  · unfold applyRedemption
    dsimp only
    rw [h0, Nat.sub_zero, Function.update_eq_self]
  · unfold applyRedemption
    dsimp only
    rw [h0, Nat.add_zero, Function.update_eq_self]

/-- Witness for the amended C5 at a concrete input. -/
theorem redeemVoucher_zero_amount_no_check_witness :
    redeemVoucher rc0 5 initState 2 v0z 0 = .ok (applyRedemption initState v0z) ∧
    (applyRedemption initState v0z).userBalance = initState.userBalance ∧
    (applyRedemption initState v0z).reservedBalance = initState.reservedBalance ∧
    (applyRedemption initState v0z).merchantBalance = initState.merchantBalance ∧
    (applyRedemption initState v0z).redeemed v0z = true :=
  redeemVoucher_zero_amount_no_check rc0 5 initState 2 v0z 0 (by decide) (by decide)
    (by decide) (by decide) (by decide) (by decide)

/-! ## C6: batch length validation -/

/-- C6 counterexample: the contract's `redeemBatch` accepts the empty batch —
`redeemBatch([], [])` succeeds as a no-op instead of failing. -/
theorem redeemBatch_empty_succeeds_cex :
    redeemBatch rc0 0 initState 0 [] [] = .ok (initState, []) := rfl

/-- C6 amended: the contract's `redeemBatch` reverts with the length-mismatch
error whenever the arrays differ in length, but an empty batch (both arrays
empty) succeeds with no state change and no events; the empty-batch rejection
exists only in the SDK wrapper's pre-check. -/
theorem redeemBatch_length_validation
    (recover : Voucher → Sig → Address) (now : Nat) (s : State) (sender : Address)
    (vs : List Voucher) (sigs : List Sig)
    (h : vs.length ≠ sigs.length) :
    redeemBatch recover now s sender vs sigs = .error "length mismatch" ∧
    redeemBatch recover now s sender [] [] = .ok (s, []) ∧
    runOps recover s [Op.redeemBatch now sender vs sigs] = (s, []) ∧
    sdkRedeemBatchPrecheck 0 0 = .error "At least one voucher is required" := by
  have hm : redeemBatch recover now s sender vs sigs = .error "length mismatch" := by
    unfold redeemBatch
    rw [if_neg h]
  refine ⟨hm, rfl, ?_, rfl⟩
  have ha : applyEv recover (Op.redeemBatch now sender vs sigs) s =
      .error "length mismatch" := by
    simp only [applyEv]
    exact hm
  rw [runOps_cons_err ha, runOps_nil]

/-- Witness for the amended C6 at a concrete input: one voucher against zero
signatures. -/
theorem redeemBatch_length_validation_witness :
    redeemBatch rc0 0 s0 2 [v1] [] = .error "length mismatch" ∧
    redeemBatch rc0 0 s0 2 [] [] = .ok (s0, []) ∧
    runOps rc0 s0 [Op.redeemBatch 0 2 [v1] []] = (s0, []) ∧
    sdkRedeemBatchPrecheck 0 0 = .error "At least one voucher is required" :=
  redeemBatch_length_validation rc0 0 s0 2 [v1] [] (by decide)

/-! ## Batch composition and abort helpers -/

/-- Definitional equation of the batch loop on an empty list. -/
theorem redeemBatchLoop_nil {recover : Voucher → Sig → Address} {now : Nat}
    {sender : Address} {s : State} :
    redeemBatchLoop recover now sender s [] = .ok (s, []) := rfl

/-- Definitional equation of the batch loop on a cons cell. -/
theorem redeemBatchLoop_cons {recover : Voucher → Sig → Address} {now : Nat}
    {sender : Address} {s : State} {v : Voucher} {sig : Sig}
    {rest : List (Voucher × Sig)} :
    redeemBatchLoop recover now sender s ((v, sig) :: rest) =
      (if sender = v.merchant then
        if now ≤ v.expiry then
          if s.redeemed v then
            redeemBatchLoop recover now sender s rest
          else if recover v sig = v.payer then
            if v.amount ≤ s.userBalance v.payer then
              if v.amount ≤ s.reservedBalance v.payer then
                if s.merchantBalance v.merchant + v.amount ≤ UINT_MAX then
                  match redeemBatchLoop recover now sender (applyRedemption s v) rest with
                  | .ok (s', evs) => .ok (s', v :: evs)
                  | .error e => .error e
                else .error "panic: arithmetic overflow"
              else .error "not enough reserved funds in batch"
            else .error "payer insufficient balance in batch"
          else
            redeemBatchLoop recover now sender s rest
        else .error "voucher expired"
      else .error "caller not merchant") := rfl

/-- The batch loop processes a concatenation by processing the first part
fully, then the second from the resulting state, concatenating events — the
loop is strictly left-to-right. -/
theorem redeemBatchLoop_append {recover : Voucher → Sig → Address} {now : Nat}
    {sender : Address} :
    ∀ (l₁ l₂ : List (Voucher × Sig)) (s : State),
      redeemBatchLoop recover now sender s (l₁ ++ l₂) =
        match redeemBatchLoop recover now sender s l₁ with
        | .ok (s₁, e₁) =>
          match redeemBatchLoop recover now sender s₁ l₂ with
          | .ok (s₂, e₂) => .ok (s₂, e₁ ++ e₂)
          | .error e => .error e
        | .error e => .error e := by
  intro l₁
  induction l₁ with
  | nil =>
    intro l₂ s
    simp only [List.nil_append]
    cases h : redeemBatchLoop recover now sender s l₂ with
    | ok p =>
      obtain ⟨s₂, e₂⟩ := p
      simp [redeemBatchLoop, h]
    | error e => simp [redeemBatchLoop, h]
  | cons hd rest ih =>
    intro l₂ s
    obtain ⟨v, sig⟩ := hd
    simp only [List.cons_append]
    rw [redeemBatchLoop_cons, redeemBatchLoop_cons]
    split
    · split
      · split
        · exact ih l₂ s
        · split
          · split
            · split
              · split
                · rw [ih l₂ (applyRedemption s v)]
                  cases h1 : redeemBatchLoop recover now sender (applyRedemption s v) rest with
                  | ok p =>
                    obtain ⟨s₁, e₁⟩ := p
                    cases h2 : redeemBatchLoop recover now sender s₁ l₂ with
                    | ok q =>
                      obtain ⟨s₂, e₂⟩ := q
                      simp [h2]
                    | error e => simp [h2]
                  | error e => simp
                · rfl
              · rfl
            · rfl
          · exact ih l₂ s
      · rfl
    · rfl

/-- An entry whose merchant is not the caller, whose expiry has passed, or
whose payer (after passing the skip checks) lacks total or reserved balance,
makes the batch loop revert at that entry. -/
theorem redeemBatchLoop_abort {recover : Voucher → Sig → Address} {now : Nat}
    {sender : Address} (s : State) (v : Voucher) (g : Sig)
    (rest : List (Voucher × Sig))
    (hbad : sender ≠ v.merchant ∨ v.expiry < now ∨
      (s.redeemed v = false ∧ recover v g = v.payer ∧
        (s.userBalance v.payer < v.amount ∨ s.reservedBalance v.payer < v.amount))) :
    ∃ e, redeemBatchLoop recover now sender s ((v, g) :: rest) = .error e := by
  by_cases h1 : sender = v.merchant
  · by_cases h2 : now ≤ v.expiry
    · rcases hbad with hb | hb | hb
      · exact absurd h1 hb
      · exact absurd h2 (by omega)
      · obtain ⟨hred, hsig, hins⟩ := hb
        by_cases hu2 : v.amount ≤ s.userBalance v.payer
        · refine ⟨"not enough reserved funds in batch", ?_⟩
          rw [redeemBatchLoop_cons, if_pos h1, if_pos h2, if_neg (by simp [hred]),
            if_pos hsig, if_pos hu2, if_neg (by omega)]
        · refine ⟨"payer insufficient balance in batch", ?_⟩
          rw [redeemBatchLoop_cons, if_pos h1, if_pos h2, if_neg (by simp [hred]),
            if_pos hsig, if_neg hu2]
    · refine ⟨"voucher expired", ?_⟩
      rw [redeemBatchLoop_cons, if_pos h1, if_neg h2]
  · refine ⟨"caller not merchant", ?_⟩
    rw [redeemBatchLoop_cons, if_neg h1]

/-- C4: `redeemBatch` processes entries strictly in array order; an entry
whose digest is already redeemed, or whose recovered signer differs from its
payer, is skipped with no error and no effect (having passed the
caller-merchant and expiry checks, which the code performs first); an entry
whose merchant differs from the caller, whose expiry is before the current
time, or whose payer lacks total or reserved balance reverts the whole call,
and a reverted batch leaves the state unchanged — no entry's effects
persist. -/
theorem redeemBatch_order_and_policy (recover : Voucher → Sig → Address)
    (now : Nat) (sender : Address) :
    (∀ (l₁ l₂ : List (Voucher × Sig)) (s : State),
      redeemBatchLoop recover now sender s (l₁ ++ l₂) =
        match redeemBatchLoop recover now sender s l₁ with
        | .ok (s₁, e₁) =>
          match redeemBatchLoop recover now sender s₁ l₂ with
          | .ok (s₂, e₂) => .ok (s₂, e₁ ++ e₂)
          | .error e => .error e
        | .error e => .error e) ∧
    (∀ (s : State) (v : Voucher) (g : Sig) (rest : List (Voucher × Sig)),
      sender = v.merchant → now ≤ v.expiry → s.redeemed v = true →
      redeemBatchLoop recover now sender s ((v, g) :: rest) =
        redeemBatchLoop recover now sender s rest) ∧
    (∀ (s : State) (v : Voucher) (g : Sig) (rest : List (Voucher × Sig)),
      sender = v.merchant → now ≤ v.expiry → s.redeemed v = false →
      recover v g ≠ v.payer →
      redeemBatchLoop recover now sender s ((v, g) :: rest) =
        redeemBatchLoop recover now sender s rest) ∧
    (∀ (s : State) (v : Voucher) (g : Sig) (rest : List (Voucher × Sig)),
      (sender ≠ v.merchant ∨ v.expiry < now ∨
        (s.redeemed v = false ∧ recover v g = v.payer ∧
          (s.userBalance v.payer < v.amount ∨ s.reservedBalance v.payer < v.amount))) →
      ∃ e, redeemBatchLoop recover now sender s ((v, g) :: rest) = .error e) ∧
    (∀ (s : State) (vs : List Voucher) (sigs : List Sig) (e : String),
      redeemBatch recover now s sender vs sigs = .error e →
      runOps recover s [Op.redeemBatch now sender vs sigs] = (s, [])) := by
  refine ⟨fun l₁ l₂ s => redeemBatchLoop_append l₁ l₂ s, ?_, ?_,
    fun s v g rest hbad => redeemBatchLoop_abort s v g rest hbad, ?_⟩
  · intro s v g rest h1 h2 h3
    rw [redeemBatchLoop_cons, if_pos h1, if_pos h2, if_pos h3]
  · intro s v g rest h1 h2 h3 h4
    rw [redeemBatchLoop_cons, if_pos h1, if_pos h2, if_neg (by simp [h3]), if_neg h4]
  · intro s vs sigs e h
    have ha : applyEv recover (Op.redeemBatch now sender vs sigs) s = .error e := by
      simp only [applyEv]
      exact h
    rw [runOps_cons_err ha, runOps_nil]

/-- Witness for C4 at concrete inputs: a skip of an already-redeemed entry, a
skip of a bad-signer entry, an abort on insufficient balance, and a reverted
batch leaving the state unchanged. -/
theorem redeemBatch_order_and_policy_witness :
    (redeemBatchLoop rc0 5 2 sRed [(v1, 0)] = redeemBatchLoop rc0 5 2 sRed []) ∧
    (redeemBatchLoop rcBad 5 2 s0 [(v1, 0)] = redeemBatchLoop rcBad 5 2 s0 []) ∧
    (∃ e, redeemBatchLoop rc0 5 2 initState [(v1, 0)] = .error e) ∧
    runOps rc0 s0 [Op.redeemBatch 5 2 [v1] []] = (s0, []) :=
  ⟨(redeemBatch_order_and_policy rc0 5 2).2.1 sRed v1 0 [] (by decide) (by decide)
      (by decide),
   (redeemBatch_order_and_policy rcBad 5 2).2.2.1 s0 v1 0 [] (by decide) (by decide)
      (by decide) (by decide),
   (redeemBatch_order_and_policy rc0 5 2).2.2.2.1 initState v1 0 []
      (Or.inr (Or.inr ⟨by decide, by decide, Or.inl (by decide)⟩)),
   (redeemBatch_order_and_policy rc0 5 2).2.2.2.2 s0 [v1] [] "length mismatch" rfl⟩

/-- C9: the redeemed set is monotone — once a digest is marked redeemed it
stays redeemed after every later operation — and, starting from the initial
state, the balance-transfer effects for a digest are applied exactly once:
the number of committed redemptions of a digest over any trace equals one
exactly when the digest is marked redeemed, and is never more than one. -/
theorem redeemed_monotone_effects_once :
    (∀ (recover : Voucher → Sig → Address) (s : State) (ops : List Op) (d : Voucher),
      s.redeemed d = true → ((runOps recover s ops).1).redeemed d = true) ∧
    (∀ (recover : Voucher → Sig → Address) (ops : List Op) (d : Voucher),
      ((runOps recover initState ops).2).count d =
        (if ((runOps recover initState ops).1).redeemed d then 1 else 0)) := by
  constructor
  · intro recover s ops d hd
    exact runOps_redeemed_mono ops s d hd
  · intro recover ops d
    have hc := @runOps_count recover ops initState d
    have hinit : initState.redeemed d = false := rfl
    rw [hinit] at hc
    simpa using hc

/-- Witness for C9 at concrete inputs: `v1` stays redeemed across a further
deposit, and a deposit-reserve-redeem trace from the initial state commits
`v1` exactly once. -/
theorem redeemed_monotone_effects_once_witness :
    ((runOps rc0 sRed [Op.deposit 1 5]).1).redeemed v1 = true ∧
    ((runOps rc0 initState
        [Op.deposit 1 40, Op.reserveFunds 1 40, Op.redeemVoucher 5 2 v1 0]).2).count v1 =
      (if ((runOps rc0 initState
        [Op.deposit 1 40, Op.reserveFunds 1 40, Op.redeemVoucher 5 2 v1 0]).1).redeemed v1
        then 1 else 0) :=
  ⟨redeemed_monotone_effects_once.1 rc0 sRed [Op.deposit 1 5] v1 (by decide),
   redeemed_monotone_effects_once.2 rc0
     [Op.deposit 1 40, Op.reserveFunds 1 40, Op.redeemVoucher 5 2 v1 0] v1⟩

end Payce
